import Mathlib

/-!
Shallow embedding of src/kernel/limine_def.rs: the kernel-side binding
layer for the Limine boot protocol — the nullable external-pointer
abstraction (LiminePtr), the framebuffer request/response records, and the
decoding of the response into a slice of framebuffer entries.

Machine model: a 64-bit target, so usize, u64 and pointers are 64-bit
words.  Machine integers are embedded as Nat; an operation that can
overflow a usize is reduced modulo 2 ^ 64 (release-mode wrapping
semantics).  Memory owned by the external producer (the boot loader) is
modelled by total typed load functions — totality is exactly the trust
obligation the layer places on the producer — and the interior-mutable
response slot of a request is modelled by explicit state passing.
-/

/-- Number of values of a 64-bit machine word (usize, u64, raw pointers). -/
def usizeSize : Nat := 2 ^ 64

/-- Embeds LiminePtr of T (limine_def.rs, line 36): an optional raw address
of a value of type T supplied by the external producer.  The address is the
payload of the underlying NonNull, hence nonzero whenever present; the type
parameter is phantom, as in the source. -/
structure LiminePtr (T : Type) where
  ptr : Option Nat
  deriving DecidableEq

/-- limine_def.rs, line 46: the absent default — the only state reachable
from kernel code, usable as a compile-time constant. -/
def LiminePtr.DEFAULT {T : Type} : LiminePtr T := ⟨none⟩

/-- limine_def.rs, line 49: Some(self.ptr?.as_ptr()) — the raw address when
present, None when absent.  Takes no memory argument: it never
dereferences. -/
def LiminePtr.as_ptr {T : Type} (p : LiminePtr T) : Option Nat :=
  match p.ptr with
  | none => none
  | some a => some a

/-- limine_def.rs, line 52: self.ptr.map(|e| e.as_ref()) — a shared view of
the pointee when present; load is the trusted external memory at type T. -/
def LiminePtr.get {T : Type} (p : LiminePtr T) (load : Nat → T) : Option T :=
  Option.map (fun a => load a) p.ptr

/-- limine_def.rs, line 67: self.ptr.as_mut().map(|e| e.as_mut()) — an
exclusive view of the pointee when present, absence otherwise. -/
def LiminePtr.get_mut {T : Type} (p : LiminePtr T) (load : Nat → T) : Option T :=
  Option.map (fun a => load a) p.ptr

/-- limine_def.rs, line 91: the per-surface descriptor (repr C).  Source
field types: address is a raw byte pointer; width, height, pitch and
edid_size are u64; bpp is u16; memory_model and the six mask fields are u8;
reserved is a 7-byte array; edid is a raw byte pointer. -/
structure LimineFramebuffer where
  address : Nat
  width : Nat
  height : Nat
  pitch : Nat
  bpp : Nat
  memory_model : Nat
  red_mask_size : Nat
  red_mask_shift : Nat
  green_mask_size : Nat
  green_mask_shift : Nat
  blue_mask_size : Nat
  blue_mask_shift : Nat
  reserved : List Nat
  edid_size : Nat
  edid : Nat
  deriving DecidableEq

/-- limine_def.rs, line 111: self.pitch as usize * self.height as usize *
(self.bpp as usize / 8).  On the 64-bit target each cast is value-preserving
and each usize multiplication wraps modulo 2 ^ 64. -/
def LimineFramebuffer.size (fb : LimineFramebuffer) : Nat :=
  (fb.pitch * fb.height % usizeSize * (fb.bpp / 8)) % usizeSize

/-- External memory owned by the boot loader, as typed total load
functions: loadPtr reads a pointer-sized word at a byte address, loadFB
reads a LimineFramebuffer record starting at a byte address. -/
structure Mem where
  loadPtr : Nat → Nat
  loadFB : Nat → LimineFramebuffer

/-- Byte stride between consecutive LimineFramebuffer records in a slice:
the record's size under repr C on the 64-bit target (address 8, width 8,
height 8, pitch 8, bpp 2, memory_model 1, six mask bytes, 7 reserved bytes,
edid_size 8, edid 8, aligned to 8 -- total 64 bytes). -/
def fbStride : Nat := 64

/-- limine_def.rs, line 80: core::slice::from_raw_parts(array, len) at
element type LimineFramebuffer — the len records laid out consecutively
from the base address. -/
def into_slice (m : Mem) (array : Nat) (len : Nat) : List LimineFramebuffer :=
  (List.range len).map (fun i => m.loadFB (array + fbStride * i))

/-- limine_def.rs, line 119 (repr C): revision u64, framebuffer_count u64,
and framebuffers, a static reference to a raw pointer to
LimineFramebuffer — embedded as the byte address of that pointer cell. -/
structure LimineFramebufferResponse where
  revision : Nat
  framebuffer_count : Nat
  framebuffers : Nat
  deriving DecidableEq

/-- limine_def.rs, line 127, the method framebuffers():
into_slice(*self.framebuffers, self.framebuffer_count as usize) — read the
pointer stored in the framebuffers cell, then take framebuffer_count
consecutive records starting at that pointer.  (Named framebuffersSlice
because the field of the same name occupies the source name.) -/
def LimineFramebufferResponse.framebuffersSlice
    (resp : LimineFramebufferResponse) (m : Mem) : List LimineFramebuffer :=
  into_slice m (m.loadPtr resp.framebuffers) resp.framebuffer_count

/-- limine_def.rs, line 134 (repr C): id is a 4-word token, revision u64,
and response is the UnsafeCell slot holding a LiminePtr to the response
record; interior mutability is modelled by explicit state passing. -/
structure LimineFramebufferRequest where
  id : List Nat
  revision : Nat
  response : LiminePtr LimineFramebufferResponse
  deriving DecidableEq

/-- limine_def.rs, line 143: the fixed 4-word identification token of the
framebuffer feature. -/
def LimineFramebufferRequest.ID : List Nat :=
  [0xc7b1dd30df4c8b88, 0x0a82e883a194f07b, 0x9d5827dcd881dd75, 0xa3148604f6fab11b]

/-- limine_def.rs, line 146: const fn new(revision) — the token, the given
revision, and the absent default response slot. -/
def LimineFramebufferRequest.new (revision : Nat) : LimineFramebufferRequest :=
  ⟨LimineFramebufferRequest.ID, revision, LiminePtr.DEFAULT⟩

/-- limine_def.rs, line 153: read_volatile of the response slot — returns
the slot's current value. -/
def LimineFramebufferRequest.get_response
    (req : LimineFramebufferRequest) : LiminePtr LimineFramebufferResponse :=
  req.response

/-- get_response seen as a state transformer: the volatile read returns a
copy of the slot's current value and writes nothing, so the call also
yields the record it leaves behind. -/
def LimineFramebufferRequest.get_responseS
    (req : LimineFramebufferRequest) :
    LiminePtr LimineFramebufferResponse × LimineFramebufferRequest :=
  (req.get_response, req)

/-- Environment model: the external producer's out-of-band write of the
response slot during the handshake window (the one transition of the
request's state machine).  Kernel code never performs this write; the id
and revision fields are untouched. -/
def writeResponse (req : LimineFramebufferRequest) (a : Nat) :
    LimineFramebufferRequest :=
  ⟨req.id, req.revision, ⟨some a⟩⟩

/-- A framebuffer record with the given width and every other field zero. -/
def fbWithWidth (w : Nat) : LimineFramebuffer :=
  ⟨0, w, 0, 0, 0, 0, 0, 0, 0, 0, 0, 0, [0, 0, 0, 0, 0, 0, 0], 0, 0⟩

/-- Producer memory for the C1 failing input.  The response's pointer cell
at address 1000 begins a two-element entry-pointer array (1000 holds 4096,
1008 holds 8192); the designated entries live at 4096 (width 111) and 8192
(width 222); the bytes at 4096 + 64 = 4160 hold an unrelated record of
width 77. -/
def c1Mem : Mem :=
  ⟨fun a => if a = 1000 then 4096 else if a = 1008 then 8192 else 0,
   fun a =>
     if a = 4096 then fbWithWidth 111
     else if a = 8192 then fbWithWidth 222
     else if a = 4160 then fbWithWidth 77
     else fbWithWidth 0⟩

/-- The C1 failing response: two framebuffers, pointer array at 1000. -/
def c1Resp : LimineFramebufferResponse := ⟨0, 2, 1000⟩

/-- Framebuffer with pitch = height = 2 ^ 32 and bpp = 8: its true byte
size is exactly 2 ^ 64, one past the machine word range. -/
def fbOverflow : LimineFramebuffer :=
  ⟨0, 0, 2 ^ 32, 2 ^ 32, 8, 0, 0, 0, 0, 0, 0, 0, [0, 0, 0, 0, 0, 0, 0], 0, 0⟩

/-- The spec's worked example: width 800, height 600, pitch 800, bpp 32. -/
def fbSample : LimineFramebuffer :=
  ⟨0, 800, 600, 800, 32, 0, 0, 0, 0, 0, 0, 0, [0, 0, 0, 0, 0, 0, 0], 0, 0⟩

/-- Framebuffer with pitch = 2 ^ 33, height = 2 ^ 31, bpp = 8: true byte
size 2 ^ 64, used to exercise the wrap case of size(). -/
def fbHuge : LimineFramebuffer :=
  ⟨0, 0, 2 ^ 31, 2 ^ 33, 8, 0, 0, 0, 0, 0, 0, 0, [0, 0, 0, 0, 0, 0, 0], 0, 0⟩

/-- Framebuffer with bpp = 7 (below one byte per pixel). -/
def fbLowBpp : LimineFramebuffer :=
  ⟨0, 800, 600, 800, 7, 0, 0, 0, 0, 0, 0, 0, [0, 0, 0, 0, 0, 0, 0], 0, 0⟩

/-- A concrete response record used as a pointee in witnesses. -/
def respSample : LimineFramebufferResponse := ⟨1, 0, 0⟩

/-- Claim C1 (code path, at the failing input): on c1Mem and c1Resp the
method framebuffers() returns as entry 1 the record 64 bytes after entry 0
(width 77), not the record designated by the second pointer of the
entry-pointer array (width 222): the code treats the first entry pointer as
the base of a contiguous struct array instead of following the per-entry
pointers the response's own field layout declares. -/
theorem framebuffers_ignores_entry_pointers :
    c1Resp.framebuffersSlice c1Mem = [fbWithWidth 111, fbWithWidth 77] ∧
    c1Mem.loadFB (c1Mem.loadPtr (c1Resp.framebuffers + 8 * 1)) = fbWithWidth 222 ∧
    fbWithWidth 77 ≠ fbWithWidth 222 :=
  ⟨by decide, by decide, by decide⟩

/-- Claim C2, counterexample: for pitch = height = 2 ^ 32 and bpp = 8 the
product pitch * height * (bpp / 8) is 2 ^ 64, but size() wraps the usize
multiplication and returns 0, so size() does not return that product for
every framebuffer entry. -/
theorem size_overflow_cex :
    fbOverflow.size = 0 ∧
    fbOverflow.pitch * fbOverflow.height * (fbOverflow.bpp / 8) = 2 ^ 64 ∧
    (0 : Nat) ≠ 2 ^ 64 :=
  ⟨by decide, by decide, by decide⟩

/-- Claim C2, amended: size() returns pitch * height * (bpp / 8) reduced
modulo 2 ^ 64 — the exact product whenever it fits the machine word — and
in particular for pitch = 800, height = 600, bpp = 32 it returns
1920000. -/
theorem size_eq_product_mod :
    (∀ fb : LimineFramebuffer,
      fb.size = fb.pitch * fb.height * (fb.bpp / 8) % usizeSize) ∧
    fbSample.size = 1920000 := by
  constructor
  · intro fb
    unfold LimineFramebuffer.size
    exact Nat.mod_mul_mod
  · decide

/-- Claim C3: new(revision) produces a request whose identification token
is the feature's fixed 4-word constant, whose revision is the given one,
and whose response slot is absent. -/
theorem new_fields (r : Nat) :
    (LimineFramebufferRequest.new r).id = LimineFramebufferRequest.ID ∧
    LimineFramebufferRequest.ID =
      [0xc7b1dd30df4c8b88, 0x0a82e883a194f07b, 0x9d5827dcd881dd75, 0xa3148604f6fab11b] ∧
    (LimineFramebufferRequest.new r).revision = r ∧
    (LimineFramebufferRequest.new r).response.ptr = none :=
  ⟨rfl, rfl, rfl, rfl⟩

/-- Claim C4: on a freshly constructed request, whose response slot no
write has touched, the pointer returned by get_response() is absent —
as_ptr and get on it both return none, whatever the external memory. -/
theorem get_response_unwritten_absent (r : Nat)
    (load : Nat → LimineFramebufferResponse) :
    (LimineFramebufferRequest.new r).get_response.as_ptr = none ∧
    (LimineFramebufferRequest.new r).get_response.get load = none :=
  ⟨rfl, rfl⟩

/-- Claim C5: after the external producer writes a valid (nonzero) pointer
a into the response slot, get_response() returns a present pointer whose
raw address is a and whose target under the external memory is load a. -/
theorem get_response_after_write (req : LimineFramebufferRequest) (a : Nat)
    (load : Nat → LimineFramebufferResponse) (_h : a ≠ 0) :
    (writeResponse req a).get_response.as_ptr = some a ∧
    (writeResponse req a).get_response.get load = some (load a) :=
  ⟨rfl, rfl⟩

/-- Witness for C5: request new 0, written pointer 4096, external memory
holding respSample everywhere. -/
theorem get_response_after_write_witness :
    (writeResponse (LimineFramebufferRequest.new 0) 4096).get_response.as_ptr
        = some 4096 ∧
    (writeResponse (LimineFramebufferRequest.new 0) 4096).get_response.get
        (fun _ => respSample) = some respSample :=
  get_response_after_write (LimineFramebufferRequest.new 0) 4096
    (fun _ => respSample) (by decide)

/-- Claim C6: after a single external write of a, every call to
get_response() returns the same present value some a, and the call leaves
the request record (id, revision, response slot) unchanged: the state after
one read — and hence after any number of reads — is the written state. -/
theorem get_response_idempotent (req : LimineFramebufferRequest) (a : Nat) :
    ((writeResponse req a).get_responseS).1 = ⟨some a⟩ ∧
    ((writeResponse req a).get_responseS).2 = writeResponse req a ∧
    (((writeResponse req a).get_responseS).2.get_responseS).1 =
      ((writeResponse req a).get_responseS).1 :=
  ⟨rfl, rfl, rfl⟩

/-- Claim C7: as_ptr is the identity on the stored optional address —
defined with no memory argument, so it never dereferences — and get is the
view through external memory exactly when a value is present, none
otherwise. -/
theorem as_ptr_get_spec (T : Type) (p : LiminePtr T) (load : Nat → T) :
    p.as_ptr = p.ptr ∧ p.get load = Option.map load p.ptr := by
  constructor
  · cases h : p.ptr <;> simp [LiminePtr.as_ptr, h]
  · rfl

/-- Claim C8: no operation of the layer panics or aborts — size() always
returns a machine word, wrapping rather than trapping when the product
exceeds the usize range; the pointer accessors surface absence as none;
decoding always returns a list of exactly the declared length; and reading
the response slot is total and leaves the record unchanged. -/
theorem no_panic_total :
    (∀ fb : LimineFramebuffer, fb.size < usizeSize) ∧
    (∀ fb : LimineFramebuffer,
      usizeSize ≤ fb.pitch * fb.height * (fb.bpp / 8) →
      fb.size = fb.pitch * fb.height * (fb.bpp / 8) % usizeSize) ∧
    (∀ (T : Type) (p : LiminePtr T) (load : Nat → T),
      p.ptr = none →
      p.as_ptr = none ∧ p.get load = none ∧ p.get_mut load = none) ∧
    (∀ (m : Mem) (resp : LimineFramebufferResponse),
      (resp.framebuffersSlice m).length = resp.framebuffer_count) ∧
    (∀ req : LimineFramebufferRequest, req.get_responseS = (req.response, req)) := by
  refine ⟨?_, ?_, ?_, ?_, ?_⟩
  · intro fb
    exact Nat.mod_lt _ (by decide)
  · intro fb _
    unfold LimineFramebuffer.size
    exact Nat.mod_mul_mod
  · intro T p load h
    exact ⟨by simp [LiminePtr.as_ptr, h], by simp [LiminePtr.get, h],
      by simp [LiminePtr.get_mut, h]⟩
  · intro m resp
    simp [LimineFramebufferResponse.framebuffersSlice, into_slice]
  · intro req
    rfl

/-- Witness for C8 at concrete inputs: fbHuge's true product reaches the
word range yet size() yields the wrapped value 0, and the absent default
pointer surfaces as none. -/
theorem no_panic_total_witness :
    fbHuge.size = fbHuge.pitch * fbHuge.height * (fbHuge.bpp / 8) % usizeSize ∧
    (LiminePtr.DEFAULT : LiminePtr Nat).as_ptr = none :=
  ⟨no_panic_total.2.1 fbHuge (by decide),
   (no_panic_total.2.2.1 Nat LiminePtr.DEFAULT (fun _ => 0) rfl).1⟩

/-- Claim C10: size() computes the bytes-per-pixel factor by the truncating
division bpp / 8 — equivalently it uses (bpp - bpp % 8) / 8, dropping the
fractional byte — so every framebuffer whose bpp is below 8 has size 0
regardless of pitch and height. -/
theorem size_truncating_div :
    (∀ fb : LimineFramebuffer,
      fb.size = fb.pitch * fb.height * (fb.bpp / 8) % usizeSize) ∧
    (∀ fb : LimineFramebuffer,
      fb.size = fb.pitch * fb.height * ((fb.bpp - fb.bpp % 8) / 8) % usizeSize) ∧
    (∀ fb : LimineFramebuffer, fb.bpp < 8 → fb.size = 0) := by
  refine ⟨?_, ?_, ?_⟩
  · intro fb
    unfold LimineFramebuffer.size
    exact Nat.mod_mul_mod
  · intro fb
    have h : (fb.bpp - fb.bpp % 8) / 8 = fb.bpp / 8 := by omega
    rw [h]
    unfold LimineFramebuffer.size
    exact Nat.mod_mul_mod
  · intro fb h
    unfold LimineFramebuffer.size
    rw [Nat.div_eq_of_lt h]
    simp

/-- Witness for C10 at bpp = 7, pitch = 800, height = 600: size is 0. -/
theorem size_truncating_div_witness : fbLowBpp.size = 0 :=
  size_truncating_div.2.2 fbLowBpp (by decide)
